import Mathlib

/-!
Verification development for the kubelink repository (multi-cluster
service-network bridge).  The definitions below are a shallow embedding of
the Go source:

* `pkg/kubelink/links.go` — ingress policy (`IPRange`, `Link.AllowIngress`)
  and the link registry (`Links.updateLink`, `replaceLink`, `RemoveLink`,
  `UpdateLinkInfo`, `LinkInfoUpdated`);
* `pkg/tcp/util.go` — `onceCloseListener`, `CIDRNet`, `CIDRList`;
* `pkg/controllers/endpoints.go` (broker part) — the tunnel connection:
  `NewTunnelConnection` validation, `ReadPacket`, `WritePacket`, `serve`,
  `Close`;
* `pkg/tunnel/net.go` — `HtoNs`/`NtoHs` and `BroadcastAddress`.

Go `net.IP` values are modelled as lists of byte values (`List Nat`,
each entry `< 256` in well-formed inputs), exactly as Go represents an IP
as a byte slice of length 4 or 16.  The helper functions `goTo4`,
`goEqualIP`, `goMask` and `ipnetContains` are byte-for-byte translations
of `net.IP.To4`, `net.IP.Equal`, `net.IP.Mask` and `net.IPNet.Contains`
from the Go standard library, which the source relies on.
-/

/-- A Go `net.IP`: a byte slice. -/
abbrev IPAddr := List Nat

/-- Go `net.IPNet`: an IP together with a mask (both byte slices). -/
structure IPNet where
  ip : IPAddr
  mask : IPAddr
deriving DecidableEq, Repr

/-- The 12-byte head `0,0,0,0,0,0,0,0,0,0,0xff,0xff` of an IPv4-mapped
IPv6 address (Go `v4InV6Prefix`). -/
def v4MappedHead : IPAddr := [0, 0, 0, 0, 0, 0, 0, 0, 0, 0, 255, 255]

/-- Go `net.IPv6zero`: sixteen zero bytes. -/
def ipv6zero : IPAddr := List.replicate 16 0

/-- Go `net.IP.To4`: a 4-byte IP is returned as is; a 16-byte
IPv4-mapped address is shortened to its last 4 bytes; anything else
yields `nil` (`none`). -/
def goTo4 (ip : IPAddr) : Option IPAddr :=
  if ip.length = 4 then some ip
  else if ip.length = 16 ∧ ip.take 12 = v4MappedHead then some (ip.drop 12)
  else none

/-- Go `net.IP.Equal`: byte equality up to the IPv4-in-IPv6 mapping. -/
def goEqualIP (a b : IPAddr) : Bool :=
  if a.length = b.length then a = b
  else if a.length = 4 ∧ b.length = 16 then
    decide (b.take 12 = v4MappedHead ∧ a = b.drop 12)
  else if a.length = 16 ∧ b.length = 4 then
    decide (a.take 12 = v4MappedHead ∧ a.drop 12 = b)
  else false

/-- Pointwise AND of two byte lists of equal length. -/
def andBytes : IPAddr → IPAddr → IPAddr
  | a :: as, b :: bs => (a &&& b) :: andBytes as bs
  | _, _ => []

/-- Go `net.IP.Mask` (file net/ip.go): adjusts 4/16-byte combinations of
IP and mask, then ANDs pointwise; mismatched lengths yield `nil`. -/
def goMask (ip mask : IPAddr) : Option IPAddr :=
  let mask := if mask.length = 16 ∧ ip.length = 4 ∧ (mask.take 12).all (· = 255)
              then mask.drop 12 else mask
  let ip := if mask.length = 4 ∧ ip.length = 16 ∧ ip.take 12 = v4MappedHead
            then ip.drop 12 else ip
  if ip.length ≠ mask.length then none
  else some (andBytes ip mask)

/-- Go `networkNumberAndMask` (net/ip.go): canonicalizes the network
address and mask of an `IPNet`; `none` models the `nil, nil` result. -/
def networkNumberAndMask (n : IPNet) : Option (IPAddr × IPAddr) :=
  let ipOpt : Option IPAddr :=
    match goTo4 n.ip with
    | some v => some v
    | none => if n.ip.length = 16 then some n.ip else none
  match ipOpt with
  | none => none
  | some ip =>
    if n.mask.length = 4 then
      if ip.length ≠ 4 then none else some (ip, n.mask)
    else if n.mask.length = 16 then
      if ip.length = 4 then some (ip, n.mask.drop 12) else some (ip, n.mask)
    else none

/-- Masked byte-wise comparison used by `net.IPNet.Contains`. -/
def maskedEqBytes : IPAddr → IPAddr → IPAddr → Bool
  | n :: ns, m :: ms, i :: is_ =>
    (n &&& m = i &&& m) && maskedEqBytes ns ms is_
  | [], _, _ => true
  | _, _, _ => true

/-- Go `net.IPNet.Contains`. -/
def ipnetContains (n : IPNet) (ip : IPAddr) : Bool :=
  match networkNumberAndMask n with
  | none => false
  | some (nn, m) =>
    let ip := match goTo4 ip with
              | some v => v
              | none => ip
    if nn.length ≠ ip.length then false
    else maskedEqBytes nn m ip

/-!
## CIDR lists and the ingress policy (pkg/tcp/util.go, pkg/kubelink/links.go)

Go's `tcp.CIDRList` is a slice `[]*net.IPNet` whose `IsSet` method
distinguishes the `nil` slice from a non-`nil` one, so the model is an
`Option (List IPNet)` with `none` for the `nil` slice.
-/

/-- `tcp.CIDRList`: `none` is the Go `nil` slice. -/
abbrev CIDRList := Option (List IPNet)

/-- `CIDRList.IsSet`: `*this != nil`. -/
def cidrlistIsSet (l : CIDRList) : Bool := l.isSome

/-- `CIDRList.Contains`: some member CIDR contains the IP. -/
def cidrlistContains (l : CIDRList) (ip : IPAddr) : Bool :=
  (l.getD []).any (fun c => ipnetContains c ip)

/-- The value behind a non-`nil` `kubelink.IPRange` pointer. -/
structure IPRangeV where
  Allowed : CIDRList
  Denied : CIDRList
deriving DecidableEq

/-- A Go `*IPRange`: `none` is the `nil` pointer. -/
abbrev IPRangeP := Option IPRangeV

/-- `IPRange.IsSet` (links.go:90-92). -/
def iprangeIsSet (r : IPRangeP) : Bool :=
  match r with
  | none => false
  | some v => cidrlistIsSet v.Allowed || cidrlistIsSet v.Denied

/-- `IPRange.Contains` (links.go:94-106), translated exactly: the denied
list is scanned only when the allowed gate passes, and the function falls
through to `true` otherwise. -/
def iprangeContains (r : IPRangeP) (ip : IPAddr) : Bool :=
  match r with
  | none => true
  | some v =>
    if !cidrlistIsSet v.Allowed || cidrlistContains v.Allowed ip then
      !(v.Denied.getD []).any (fun c => ipnetContains c ip)
    else
      true

/-!
## Link objects and foreign data (pkg/kubelink/links.go)
-/

/-- `kubelink.LinkAccessInfo`. -/
structure LinkAccessInfo where
  CACert : String
  Token : String
deriving DecidableEq

/-- `LinkAccessInfo.Equal` (links.go:117-119). -/
def accessEqual (a b : LinkAccessInfo) : Bool :=
  a.CACert = b.CACert && a.Token = b.Token

/-- `kubelink.LinkDNSInfo`. -/
structure LinkDNSInfo where
  ClusterDomain : String
  DnsIP : IPAddr
deriving DecidableEq

/-- `LinkDNSInfo.Equal` (links.go:130-132): uses `net.IP.Equal` on the IP. -/
def dnsEqual (a b : LinkDNSInfo) : Bool :=
  goEqualIP a.DnsIP b.DnsIP && a.ClusterDomain = b.ClusterDomain

/-- `kubelink.LinkForeignData` (links.go:134-138). -/
structure LinkForeignData where
  UpdatePending : Bool
  access : LinkAccessInfo
  dns : LinkDNSInfo
deriving DecidableEq

/-- `kubelink.Link` (links.go:49-61).  The wireguard key is kept as its
string form; `foreignData` is Go's embedded `LinkForeignData` field. -/
structure Link where
  Name : String
  ServiceCIDR : Option IPNet
  Egress : CIDRList
  Ingress : IPRangeP
  ClusterAddress : IPNet
  Gateway : IPAddr
  Host : String
  Port : Int
  Endpoint : String
  PublicKey : Option String
  foreignData : LinkForeignData
deriving DecidableEq

/-- `Link.AllowIngress` (links.go:144-149): returns `(granted, set)`. -/
def allowIngress (l : Link) (ip : IPAddr) : Bool × Bool :=
  if !iprangeIsSet l.Ingress then (true, false)
  else (iprangeContains l.Ingress ip, true)

example : goTo4 [192, 168, 0, 1] = some [192, 168, 0, 1] := by decide
example : goEqualIP (v4MappedHead ++ [1, 2, 3, 4]) [1, 2, 3, 4] = true := by decide
example : ipnetContains ⟨[100, 64, 16, 0], [255, 255, 255, 240]⟩ [100, 64, 16, 5] = true := by
  decide
example : ipnetContains ⟨[100, 64, 16, 0], [255, 255, 255, 240]⟩ [200, 0, 0, 1] = false := by
  decide

/-!
## The link registry (pkg/kubelink/links.go, `Links`)

The three Go maps `links`, `endpoints`, `clusteraddr` are modelled as
association lists with unique keys.  `clusteraddr` is keyed in Go by
`ClusterAddress.IP.String()`; since `net.IP.String` renders a 4-byte IP
and its 16-byte IPv4-mapped form identically and is otherwise injective
on byte content, the model keys that map by the canonical form
`ipStringKey` (the `To4` form when it exists).
-/

/-- Association-list lookup (Go map read). -/
def alookup {α β : Type} [DecidableEq α] : List (α × β) → α → Option β
  | [], _ => none
  | (k', v) :: r, k => if k' = k then some v else alookup r k

/-- Association-list insert/overwrite (Go map write). -/
def ainsert {α β : Type} [DecidableEq α] : List (α × β) → α → β → List (α × β)
  | [], k, v => [(k, v)]
  | (k', v') :: r, k, v =>
    if k' = k then (k, v) :: r else (k', v') :: ainsert r k v

/-- Association-list removal (Go `delete`). -/
def aerase {α β : Type} [DecidableEq α] : List (α × β) → α → List (α × β)
  | [], _ => []
  | (k', v') :: r, k => if k' = k then aerase r k else (k', v') :: aerase r k

/-- Canonical key used for the Go map keyed by `net.IP.String()`. -/
def ipStringKey (ip : IPAddr) : IPAddr := (goTo4 ip).getD ip

/-- The mutable state of `kubelink.Links` (links.go:280-288): the three
indices `links` (by name), `endpoints` (by host) and `clusteraddr`
(by cluster IP). -/
structure LinksState where
  links : List (String × Link)
  endpoints : List (String × Link)
  clusteraddr : List (IPAddr × Link)
deriving DecidableEq

/-- The empty registry (`NewLinks`). -/
def emptyLinks : LinksState := ⟨[], [], []⟩

/-- `Links.replaceLink` (links.go:399-404): store the link under its
name, host and cluster-IP keys, overwriting whatever was there. -/
def replaceLinkSt (st : LinksState) (l : Link) : LinksState :=
  { links := ainsert st.links l.Name l,
    endpoints := ainsert st.endpoints l.Host l,
    clusteraddr := ainsert st.clusteraddr (ipStringKey l.ClusterAddress.ip) l }

/-- `Links.updateLink` (links.go:418-434).  The pure parser
`Links.LinkFor` (links.go:187-264) reads only the spec strings and the
default port, never the registry; its result (a parsed `Link` or an
error) is therefore taken as the `parsed` argument here.  On success the
old snapshot's foreign data is preserved and stale host / cluster-IP
index entries are removed before `replaceLink` stores the new snapshot. -/
def updateLink (st : LinksState) (parsed : Except String Link) :
    Except String Link × LinksState :=
  match parsed with
  | .error e => (.error e, st)
  | .ok l =>
    match alookup st.links l.Name with
    | none => (.ok l, replaceLinkSt st l)
    | some old =>
      let st1 := if old.Host ≠ l.Host
                 then { st with endpoints := aerase st.endpoints old.Host }
                 else st
      let key1 := ipStringKey old.ClusterAddress.ip
      let st2 := if !goEqualIP old.ClusterAddress.ip l.ClusterAddress.ip
                 then { st1 with clusteraddr := aerase st1.clusteraddr key1 }
                 else st1
      let l' := { l with foreignData := old.foreignData }
      (.ok l', replaceLinkSt st2 l')

/-- `Links.RemoveLink` (links.go:436-445). -/
def removeLink (st : LinksState) (name : String) : LinksState :=
  match alookup st.links name with
  | none => st
  | some l =>
    { links := aerase st.links name,
      endpoints := aerase st.endpoints l.Host,
      clusteraddr := aerase st.clusteraddr (ipStringKey l.ClusterAddress.ip) }

/-- `Links.GetLinkForClusterAddress` (links.go:518-522). -/
def getLinkForClusterAddress (st : LinksState) (ip : IPAddr) : Option Link :=
  alookup st.clusteraddr (ipStringKey ip)

/-- `Links.UpdateLinkInfo` (links.go:350-391): two-phase update of the
advertised access/DNS info.  A given value is applied only when it
differs from the stored one and (`!old.UpdatePending || pending`); the
returned flag reports whether a replacement happened. -/
def updateLinkInfo (st : LinksState) (name : String)
    (access : Option LinkAccessInfo) (dns : Option LinkDNSInfo)
    (pending : Bool) : (Option Link × Bool) × LinksState :=
  match alookup st.links name with
  | none => ((none, false), st)
  | some old =>
    let aApplies := match access with
      | some a => !accessEqual old.foreignData.access a &&
                  (!old.foreignData.UpdatePending || pending)
      | none => false
    let dApplies := match dns with
      | some d => !dnsEqual old.foreignData.dns d &&
                  (!old.foreignData.UpdatePending || pending)
      | none => false
    let fd1 := match access with
      | some a => if aApplies
                  then { old.foreignData with access := a, UpdatePending := pending }
                  else old.foreignData
      | none => old.foreignData
    let fd2 := match dns with
      | some d => if dApplies
                  then { fd1 with dns := d, UpdatePending := pending }
                  else fd1
      | none => fd1
    let nw := { old with foreignData := fd2 }
    if aApplies || dApplies then ((some nw, true), replaceLinkSt st nw)
    else ((some old, false), st)

/-- `Links.LinkInfoUpdated` (links.go:325-348): when the peer echoes
back exactly the stored value, clear `UpdatePending`. -/
def linkInfoUpdated (st : LinksState) (name : String)
    (access : Option LinkAccessInfo) (dns : Option LinkDNSInfo) :
    Option Link × LinksState :=
  match alookup st.links name with
  | none => (none, st)
  | some old =>
    let aConf := match access with
      | some a => accessEqual old.foreignData.access a
      | none => false
    let dConf := match dns with
      | some d => dnsEqual old.foreignData.dns d
      | none => false
    if aConf || dConf then
      let nw := { old with foreignData := { old.foreignData with UpdatePending := false } }
      (some nw, replaceLinkSt st nw)
    else (some old, st)

theorem alookup_ainsert_self {α β : Type} [DecidableEq α]
    (m : List (α × β)) (k : α) (v : β) :
    alookup (ainsert m k v) k = some v := by
  induction m with
  | nil => simp [ainsert, alookup]
  | cons p r ih =>
    obtain ⟨k', v'⟩ := p
    by_cases h : k' = k
    · simp [ainsert, h, alookup]
    · simp [ainsert, h, alookup, ih]

theorem alookup_ainsert_ne {α β : Type} [DecidableEq α]
    (m : List (α × β)) (k k2 : α) (v : β) (h : k ≠ k2) :
    alookup (ainsert m k v) k2 = alookup m k2 := by
  induction m with
  | nil => simp [ainsert, alookup, h]
  | cons p r ih =>
    obtain ⟨k', v'⟩ := p
    by_cases hk : k' = k
    · simp [ainsert, hk, alookup, h]
    · by_cases hk2 : k' = k2
      · subst hk2
        simp [ainsert, hk, alookup]
      · simp [ainsert, hk, alookup, hk2, ih]

/-!
## Idempotent close (pkg/tcp/util.go `onceCloseListener`,
pkg/controllers/endpoints.go `TunnelConnection.Close`)

An underlying `Close` implementation is modelled as a function from the
number of calls already made to the result of the next call (`none` is a
`nil` error).  `onceCloseListener.Close` runs the underlying close under
a `sync.Once` and always returns the stored first result;
`TunnelConnection.Close` (endpoints.go:449-451) simply forwards every
call to `conn.Close()`.
-/

/-- State of a `tcp.onceCloseListener`: whether the `sync.Once` fired,
the stored `closeErr`, and how many underlying closes happened. -/
structure OnceState where
  done : Bool
  closeErr : Option String
  calls : Nat
deriving DecidableEq

/-- A fresh `onceCloseListener`. -/
def initialOnceState : OnceState := ⟨false, none, 0⟩

/-- `onceCloseListener.Close` (util.go:38-43): one call, returning the
result and the successor state. -/
def onceListenerClose (underlying : Nat → Option String) (s : OnceState) :
    Option String × OnceState :=
  if s.done then (s.closeErr, s)
  else
    let e := underlying s.calls
    (e, ⟨true, e, s.calls + 1⟩)

/-- State after `n` calls to `onceCloseListener.Close`. -/
def listenerCloseN (underlying : Nat → Option String) : Nat → OnceState
  | 0 => initialOnceState
  | n + 1 => (onceListenerClose underlying (listenerCloseN underlying n)).2

/-- `TunnelConnection.Close` (endpoints.go:449-451): every call is
forwarded to the underlying `conn.Close()`; the state is just the call
count. -/
def tunnelConnClose (connClose : Nat → Option String) (calls : Nat) :
    Option String × Nat :=
  (connClose calls, calls + 1)

/-!
## Frame codec (pkg/controllers/endpoints.go, pkg/tunnel/net.go)

Byte streams are lists of byte values.  `htons`/`ntohs` are the
big-endian `uint16` conversions `HtoNs`/`NtoHs` (tunnel/net.go:36-48,
identical helpers are used from package `tcp`).
-/

/-- `HtoNs`: big-endian encoding of a 16-bit length. -/
def htons (v : Nat) : List Nat := [v / 256 % 256, v % 256]

/-- `NtoHs`: big-endian decoding of two bytes (Go panics on fewer than
two bytes; the callers below always pass two). -/
def ntohs (b : List Nat) : Nat :=
  match b with
  | b0 :: b1 :: _ => b0 * 256 + b1
  | _ => 0

/-- `TunnelConnection.BufferSize` (endpoints.go:334). -/
def BufferSize : Nat := 17000

/-- `TunnelConnection.WritePacket` (endpoints.go:643-655): payloads over
65535 bytes are rejected before anything is written; otherwise the frame
`len | type | payload` is emitted atomically (the two `write` calls run
under the connection's write lock and loop until complete).  The `byte`
type of `ty` is reflected by truncation to one byte. -/
def writePacket (ty : Nat) (data : List Nat) : Except String (List Nat) :=
  if 65535 < data.length then .error "packet too large"
  else .ok (htons data.length ++ [ty % 256] ++ data)

/-- `TunnelConnection.ReadPacket` (endpoints.go:626-641) against a byte
stream: read exactly 3 header bytes (short streams are an I/O error),
reject a declared length larger than the caller's buffer, then read the
payload.  Returns `(length, type, payload, rest-of-stream)`. -/
def readPacket (bufSize : Nat) (stream : List Nat) :
    Except String (Nat × Nat × List Nat × List Nat) :=
  match stream with
  | b0 :: b1 :: b2 :: rest =>
    if bufSize < ntohs [b0, b1] then .error "buffer too small"
    else if rest.length < ntohs [b0, b1] then .error "EOF"
    else .ok (ntohs [b0, b1], b2, rest.take (ntohs [b0, b1]), rest.drop (ntohs [b0, b1]))
  | _ => .error "EOF"

/-!
## Handshake validation (pkg/controllers/endpoints.go `NewTunnelConnection`)
-/

/-- The expected-link test of endpoints.go:384-388: with an expected
link, a remote cluster IP differing from the link's cluster address is a
mismatch. -/
def linkMismatch (link : Option Link) (ip : IPAddr) : Bool :=
  match link with
  | some l => !goEqualIP l.ClusterAddress.ip ip
  | none => false

/-- The remote-HELLO validation in `NewTunnelConnection`
(endpoints.go:381-396): an all-zero remote cluster IP (`net.IPv6zero`)
is accepted as anonymous without further checks; otherwise the expected
link's address must match and the two cluster CIDRs must contain each
other's addresses.  An `error` result means no tunnel object is
returned (`NewTunnelConnection` returns `nil` for the tunnel).  The Go
error strings carry formatted addresses; the static message prefix is
kept here. -/
def newTunnelValidate (clusterAddr : IPNet) (link : Option Link)
    (helloCIDR : IPNet) : Except String Unit :=
  if goEqualIP ipv6zero helloCIDR.ip then .ok ()
  else if linkMismatch link helloCIDR.ip then
    .error "cluster address mismatch: got remote cluster address but expected the link cluster address"
  else if !ipnetContains helloCIDR clusterAddr.ip then
    .error "cluster address mismatch: own address not in foreign range"
  else if !ipnetContains clusterAddr helloCIDR.ip then
    .error "cluster address mismatch: remote address not in local range"
  else .ok ()

/-!
## The tunnel read loop (pkg/controllers/endpoints.go `serve`)

`serve` (endpoints.go:529-591) repeatedly reads a frame and either
drops it, skips it, or writes the payload to the tun device.  The model
processes the sequence of frames `(type, payload)` delivered by
`ReadPacket` (the payload length is the frame's `n`) and returns the
sequence of packets written to tun; tun writes are modelled as
succeeding, which is the regime of the ordering claims.
-/

/-- `golang.org/x/net/ipv4.ParseHeader`, reduced to the fields `serve`
uses: fails on fewer than 20 bytes or a header length exceeding the
packet; otherwise yields the source and destination addresses, which
`net.IPv4` represents as 16-byte IPv4-mapped addresses. -/
def parseIPv4Header (b : List Nat) : Option (IPAddr × IPAddr) :=
  if b.length < 20 then none
  else if b.length < (b.headD 0 % 16) * 4 then none
  else some (v4MappedHead ++ [b.getD 12 0, b.getD 13 0, b.getD 14 0, b.getD 15 0],
             v4MappedHead ++ [b.getD 16 0, b.getD 17 0, b.getD 18 0, b.getD 19 0])

/-- The mux data `serve` consults: the local cluster address
(`mux.clusterAddr`), the advertised local service CIDRs (`mux.local`)
and the link registry. -/
structure ServeCfg where
  clusterAddr : IPNet
  muxLocal : CIDRList
  linksSt : LinksState

/-- One iteration of the `serve` loop on a frame `(type, payload)`:
`none` means the frame is dropped or skipped, `some p` means `p` is
written to tun.  Mirrors endpoints.go:540-579: empty frames and
non-DATA types are skipped; IPv4 packets (version nibble 4) undergo the
source lookup and ingress checks; non-IPv4 payloads go to tun
uninspected. -/
def serveStep (cfg : ServeCfg) (f : Nat × List Nat) : Option (List Nat) :=
  let ty := f.1
  let packet := f.2
  if packet.length = 0 then none
  else if ty ≠ 0 then none
  else if packet.headD 0 / 16 = 4 then
    match parseIPv4Header packet with
    | none => none
    | some (src, dst) =>
      if ipnetContains cfg.clusterAddr src then
        match getLinkForClusterAddress cfg.linksSt src with
        | none => none
        | some l =>
          let gs := allowIngress l dst
          if !gs.1 then none
          else if !gs.2 && cidrlistIsSet cfg.muxLocal && !cidrlistContains cfg.muxLocal dst
               then none
          else some packet
      else if !goEqualIP dst cfg.clusterAddr.ip then none
      else some packet
  else some packet

/-- The packets written to tun by `serve` over a sequence of frames. -/
def serveFrames (cfg : ServeCfg) : List (Nat × List Nat) → List (List Nat)
  | [] => []
  | f :: rest =>
    match serveStep cfg f with
    | none => serveFrames cfg rest
    | some out => out :: serveFrames cfg rest

/-!
## `BroadcastAddress` and `CIDRNet` (pkg/tunnel/net.go, pkg/tcp/util.go)
-/

/-- `tunnel.BroadcastAddress` (net.go:50-57): copies the IP and ANDs the
first `len(mask)` bytes with the mask in place.  Go panics when the mask
is longer than the IP (`ip[i]` out of range); that case is `none`. -/
def broadcastAddress (n : IPNet) : Option IPAddr :=
  if n.mask.length ≤ n.ip.length then
    some (andBytes (n.ip.take n.mask.length) n.mask ++ n.ip.drop n.mask.length)
  else none

/-- `tcp.CIDRNet` (util.go:98-102): the same net with `IP.Mask(Mask)`
applied to the address (`none` models the `nil` IP Go produces on
mismatched lengths). -/
def cidrNetIP (n : IPNet) : Option IPAddr := goMask n.ip n.mask

/-!
## Concrete instances used by the claim theorems
-/

/-- A link with the given name, cluster address and endpoint host and no
ingress policy or foreign data (as `LinkFor` yields for a minimal spec). -/
def mkLink (name : String) (addr : IPNet) (host : String) : Link :=
  { Name := name, ServiceCIDR := none, Egress := none, Ingress := none,
    ClusterAddress := addr, Gateway := [10, 0, 0, 1], Host := host, Port := 80,
    Endpoint := host ++ ":80", PublicKey := none,
    foreignData := ⟨false, ⟨"", ""⟩, ⟨"", []⟩⟩ }

/-- The CIDR `100.64.16.0/28`. -/
def allowCIDR : IPNet := ⟨[100, 64, 16, 0], [255, 255, 255, 240]⟩

/-- `ParseIPRange(["100.64.16.0/28"])`: allowed list only, denied `nil`. -/
def ingressAllowOnly : IPRangeP := some ⟨some [allowCIDR], none⟩

/-- A link whose ingress policy allows only `100.64.16.0/28`. -/
def linkS3 : Link :=
  { mkLink "l1" ⟨[192, 168, 0, 12], [255, 255, 255, 0]⟩ "peer.example" with
    Ingress := ingressAllowOnly }

/-- **C1.** The claim states that `Link.AllowIngress` admits `dst` iff
`(Allowed empty ∨ some allowed CIDR contains dst) ∧ no denied CIDR
contains dst`.  The code (`IPRange.Contains`, links.go:94-106) skips the
denied scan and falls through to `true` whenever the allowed gate fails,
so a destination outside a non-empty `Allowed` list is *granted*: for
`Allowed = [100.64.16.0/28]`, `Denied = []` and `dst = 200.0.0.1` the
claimed formula rejects, yet `AllowIngress` returns `granted = true`.
(The repository's own firewall rendering of the same policy,
`GetIngressChain`, ends in a catch-all jump to the drop chain and would
drop this destination.) -/
theorem C1_ingress_admits_outside_allowed :
    allowIngress linkS3 [200, 0, 0, 1] = (true, true) ∧
    linkS3.Ingress = some ⟨some [allowCIDR], none⟩ ∧
    cidrlistContains (some [allowCIDR]) [200, 0, 0, 1] = false ∧
    some [allowCIDR] ≠ (none : CIDRList) := by
  refine ⟨rfl, rfl, rfl, by decide⟩

/-- Link `a` with cluster address `192.168.0.12/24`. -/
def linkA : Link := mkLink "a" ⟨[192, 168, 0, 12], [255, 255, 255, 0]⟩ "a.example"

/-- Link `b` with the *same* cluster address `192.168.0.12/24`. -/
def linkB : Link := mkLink "b" ⟨[192, 168, 0, 12], [255, 255, 255, 0]⟩ "b.example"

/-- **C2 (counterexample).** Adding two links with distinct names but
identical cluster addresses through `updateLink` raises no error and
leaves both snapshots in the registry: the claimed uniqueness invariant
is violated and no collision rejection exists. -/
theorem C2_counterexample :
    (updateLink (updateLink emptyLinks (.ok linkA)).2 (.ok linkB)).1 = .ok linkB ∧
    alookup (updateLink (updateLink emptyLinks (.ok linkA)).2 (.ok linkB)).2.links "a" =
      some linkA ∧
    alookup (updateLink (updateLink emptyLinks (.ok linkA)).2 (.ok linkB)).2.links "b" =
      some linkB ∧
    linkA.Name ≠ linkB.Name ∧
    goEqualIP linkA.ClusterAddress.ip linkB.ClusterAddress.ip = true := by
  refine ⟨rfl, rfl, rfl, by decide, rfl⟩

/-- **C2 (amended).** `updateLink` performs no collision check at all:
for every registry state, an update with a successfully parsed link
always succeeds, and the three indices (`links`, `endpoints`,
`clusteraddr`) afterwards point to the stored snapshot — a collision
merely repoints the host/cluster-IP index entries, so distinct stored
links may share a cluster address IP or a host. -/
theorem C2_update_never_rejects (st : LinksState) (l : Link) :
    ∃ l2, (updateLink st (.ok l)).1 = .ok l2 ∧
      alookup (updateLink st (.ok l)).2.links l.Name = some l2 ∧
      alookup (updateLink st (.ok l)).2.endpoints l.Host = some l2 ∧
      alookup (updateLink st (.ok l)).2.clusteraddr (ipStringKey l.ClusterAddress.ip) =
        some l2 := by
  cases halt : alookup st.links l.Name with
  | none =>
    refine ⟨l, ?_, ?_, ?_, ?_⟩ <;>
      simp [updateLink, halt, replaceLinkSt, alookup_ainsert_self]
  | some old =>
    refine ⟨{ l with foreignData := old.foreignData }, ?_, ?_, ?_, ?_⟩ <;>
      simp [updateLink, halt, replaceLinkSt, alookup_ainsert_self]

theorem listenerCloseN_succ (u : Nat → Option String) (n : Nat) :
    listenerCloseN u (n + 1) = ⟨true, u 0, 1⟩ := by
  induction n with
  | zero => rfl
  | succ m ih =>
    show (onceListenerClose u (listenerCloseN u (m + 1))).2 = _
    rw [ih]
    rfl

/-- A connection whose first `Close` succeeds and whose later closes
fail (the usual behaviour of a `net.TCPConn`). -/
def flakyConnClose : Nat → Option String :=
  fun n => if n = 0 then none else some "use of closed network connection"

/-- **C3 (counterexample).** `TunnelConnection.Close`
(endpoints.go:449-451) forwards every call to `conn.Close()` with no
once-guard, so a second call can return a different error than the
first: here the first call returns `nil` and the second an error. -/
theorem C3_counterexample :
    (tunnelConnClose flakyConnClose 0).1 = none ∧
    (tunnelConnClose flakyConnClose (tunnelConnClose flakyConnClose 0).2).1 =
      some "use of closed network connection" ∧
    (none : Option String) ≠ some "use of closed network connection" := by
  refine ⟨rfl, rfl, by decide⟩

/-- **C3 (amended).** `Close()` on a *listener* may be called any number
of times: every call returns the error of the first underlying close
and the underlying listener is closed at most once.  `Close()` on a
*tunnel connection* is unguarded: each call just forwards to the
underlying `conn.Close()` and returns that call's result, which may
differ between calls. -/
theorem C3_close_semantics (u c : Nat → Option String) (n j : Nat) :
    (onceListenerClose u (listenerCloseN u n)).1 = u 0 ∧
    (listenerCloseN u n).calls ≤ 1 ∧
    (tunnelConnClose c j).1 = c j := by
  cases n with
  | zero => exact ⟨rfl, by simp [listenerCloseN, initialOnceState], rfl⟩
  | succ m => rw [listenerCloseN_succ]; exact ⟨rfl, le_refl 1, rfl⟩

/-- The local mux cluster address `192.168.0.11/24` of scenario S2. -/
def muxCA : IPNet := ⟨[192, 168, 0, 11], [255, 255, 255, 0]⟩

/-- The expected link of scenario S2 (`clusterAddress 192.168.0.12`). -/
def expectedLink : Link := mkLink "b" ⟨[192, 168, 0, 12], [255, 255, 255, 0]⟩ "b.example"

/-- An anonymous HELLO cluster CIDR: `::/0`. -/
def anonHello : IPNet := ⟨ipv6zero, List.replicate 16 0⟩

/-- **C4 (counterexample).** With an expected link whose cluster address
is `192.168.0.12`, a remote HELLO advertising the all-zero sentinel
(`::/0`) passes validation although its cluster IP does not equal the
expected link's cluster IP (endpoints.go:383 exempts the sentinel from
every check), refuting "succeeds only if the remote HELLO's cluster IP
equals the expected link's clusterAddress IP". -/
theorem C4_counterexample :
    newTunnelValidate muxCA (some expectedLink) anonHello = .ok () ∧
    goEqualIP expectedLink.ClusterAddress.ip anonHello.ip = false := by
  exact ⟨rfl, rfl⟩

theorem linkMismatch_false_iff (link : Option Link) (ip : IPAddr) :
    linkMismatch link ip = false ↔
      ∀ l, link = some l → goEqualIP l.ClusterAddress.ip ip = true := by
  cases link with
  | none => simp [linkMismatch]
  | some l => simp [linkMismatch]

/-- **C4 (amended).** The remote-HELLO validation of
`NewTunnelConnection` succeeds iff the remote cluster IP is the all-zero
anonymous sentinel, or the expected link (when given) has exactly the
advertised cluster IP and the two cluster CIDRs contain each other's
addresses; every failure is one of the three `cluster address mismatch`
errors, in which case no tunnel object is returned. -/
theorem C4_validate_iff (ca : IPNet) (link : Option Link) (h : IPNet) :
    (newTunnelValidate ca link h = .ok () ↔
      (goEqualIP ipv6zero h.ip = true ∨
        ((∀ l, link = some l → goEqualIP l.ClusterAddress.ip h.ip = true) ∧
         ipnetContains h ca.ip = true ∧ ipnetContains ca h.ip = true))) ∧
    (∀ e, newTunnelValidate ca link h = Except.error e →
      (e = "cluster address mismatch: got remote cluster address but expected the link cluster address" ∨
       e = "cluster address mismatch: own address not in foreign range" ∨
       e = "cluster address mismatch: remote address not in local range")) := by
  constructor
  · unfold newTunnelValidate
    split_ifs with h0 h1 h2 h3
    · simp [h0]
    · constructor
      · intro hcontra; simp at hcontra
      · rintro (hz | ⟨hall, hc1, hc2⟩)
        · rw [hz] at h0; exact absurd h0 (by decide)
        · rw [(linkMismatch_false_iff link h.ip).mpr hall] at h1
          exact absurd h1 (by decide)
    · have h2' : ipnetContains h ca.ip = false := by simpa using h2
      constructor
      · intro hcontra; simp at hcontra
      · rintro (hz | ⟨hall, hc1, hc2⟩)
        · rw [hz] at h0; exact absurd h0 (by decide)
        · rw [hc1] at h2'; exact absurd h2' (by decide)
    · have h3' : ipnetContains ca h.ip = false := by simpa using h3
      constructor
      · intro hcontra; simp at hcontra
      · rintro (hz | ⟨hall, hc1, hc2⟩)
        · rw [hz] at h0; exact absurd h0 (by decide)
        · rw [hc2] at h3'; exact absurd h3' (by decide)
    · have h2' : ipnetContains h ca.ip = true := by simpa using h2
      have h3' : ipnetContains ca h.ip = true := by simpa using h3
      have h1' : linkMismatch link h.ip = false := by
        revert h1; cases linkMismatch link h.ip <;> simp
      constructor
      · intro _
        exact Or.inr ⟨(linkMismatch_false_iff link h.ip).mp h1', h2', h3'⟩
      · intro _; rfl
  · intro e he
    unfold newTunnelValidate at he
    split_ifs at he with h0 h1 h2 h3 <;>
      first
        | exact Except.noConfusion he
        | (injection he with he2; subst he2; decide)

theorem ntohs_htons (n : Nat) (h : n < 65536) : ntohs (htons n) = n := by
  have hd : n / 256 < 256 := by omega
  show n / 256 % 256 * 256 + n % 256 = n
  rw [Nat.mod_eq_of_lt hd]
  omega

/-- **C5.** Frame-codec round trip: for every type byte and payload of
at most 17000 bytes, `WritePacket` emits exactly
`len(payload) as big-endian u16 | ty | payload`, and `ReadPacket` on
that byte stream (with the 17000-byte receive buffer of `serve` /
`readHello`) returns exactly `(len(payload), ty, payload)` and consumes
the whole frame. -/
theorem C5_frame_roundtrip (ty : Nat) (p : List Nat)
    (hty : ty < 256) (hp : p.length ≤ 17000) :
    writePacket ty p = .ok (htons p.length ++ [ty] ++ p) ∧
    readPacket BufferSize (htons p.length ++ [ty] ++ p) =
      .ok (p.length, ty, p, []) := by
  have hlt : p.length < 65536 := by omega
  constructor
  · unfold writePacket
    rw [if_neg (by omega), Nat.mod_eq_of_lt hty]
  · have hn : ntohs [p.length / 256 % 256, p.length % 256] = p.length :=
      ntohs_htons p.length hlt
    show (if BufferSize < ntohs [p.length / 256 % 256, p.length % 256] then
            (Except.error "buffer too small" : Except String (Nat × Nat × List Nat × List Nat))
          else if p.length < ntohs [p.length / 256 % 256, p.length % 256] then
            Except.error "EOF"
          else Except.ok (ntohs [p.length / 256 % 256, p.length % 256], ty,
            p.take (ntohs [p.length / 256 % 256, p.length % 256]),
            p.drop (ntohs [p.length / 256 % 256, p.length % 256]))) =
        Except.ok (p.length, ty, p, [])
    rw [hn]
    rw [if_neg (by unfold BufferSize; omega), if_neg (by omega)]
    rw [List.take_length, List.drop_length]

/-- **C5 (witness).** Round trip of a concrete 4-byte payload. -/
theorem C5_frame_roundtrip_witness :
    (1 < 256 ∧ ([69, 0, 0, 28] : List Nat).length ≤ 17000) ∧
    writePacket 1 [69, 0, 0, 28] = .ok [0, 4, 1, 69, 0, 0, 28] ∧
    readPacket BufferSize [0, 4, 1, 69, 0, 0, 28] = .ok (4, 1, [69, 0, 0, 28], []) := by
  refine ⟨by decide, ?_⟩
  have h := C5_frame_roundtrip 1 [69, 0, 0, 28] (by decide) (by decide)
  simpa [htons] using h

/-- **C6.** Oversize frames are fatal: a declared u16 length exceeding
the 17000-byte receive buffer makes `ReadPacket` return the
buffer-too-small error with no payload delivered, and `WritePacket`
with a payload longer than 65535 bytes errors out before emitting any
byte. -/
theorem C6_oversize_fatal (lenD ty : Nat) (rest p : List Nat)
    (h1 : BufferSize < lenD) (h2 : lenD < 65536) (h3 : 65535 < p.length) :
    readPacket BufferSize (htons lenD ++ ty :: rest) = .error "buffer too small" ∧
    writePacket ty p = .error "packet too large" := by
  constructor
  · show (if BufferSize < ntohs [lenD / 256 % 256, lenD % 256] then
            (Except.error "buffer too small" : Except String (Nat × Nat × List Nat × List Nat))
          else if rest.length < ntohs [lenD / 256 % 256, lenD % 256] then
            Except.error "EOF"
          else Except.ok (ntohs [lenD / 256 % 256, lenD % 256], ty,
            rest.take (ntohs [lenD / 256 % 256, lenD % 256]),
            rest.drop (ntohs [lenD / 256 % 256, lenD % 256]))) =
        Except.error "buffer too small"
    have hn : ntohs [lenD / 256 % 256, lenD % 256] = lenD := ntohs_htons lenD h2
    rw [hn, if_pos h1]
  · unfold writePacket
    rw [if_pos h3]

/-- **C6 (witness).** A frame declaring 20000 payload bytes is rejected
by the reader, and a 70000-byte payload is rejected by the writer. -/
theorem C6_oversize_fatal_witness :
    (BufferSize < 20000 ∧ (20000 : Nat) < 65536 ∧
      65535 < (List.replicate 70000 0 : List Nat).length) ∧
    readPacket BufferSize (htons 20000 ++ 0 :: []) = .error "buffer too small" ∧
    writePacket 0 (List.replicate 70000 0) = .error "packet too large" := by
  have hlen : (List.replicate 70000 (0 : Nat)).length = 70000 :=
    List.length_replicate 70000 0
  have h3 : 65535 < (List.replicate 70000 (0 : Nat)).length := by
    rw [hlen]; omega
  refine ⟨⟨by decide, by decide, h3⟩, ?_⟩
  exact C6_oversize_fatal 20000 0 [] (List.replicate 70000 0)
    (by decide) (by decide) h3

theorem serveStep_nonData (cfg : ServeCfg) (ty : Nat) (p : List Nat) (h : ty ≠ 0) :
    serveStep cfg (ty, p) = none := by
  unfold serveStep
  by_cases hp : p.length = 0
  · simp [hp]
  · simp [hp, h]

theorem serveFrames_append (cfg : ServeCfg) (xs ys : List (Nat × List Nat)) :
    serveFrames cfg (xs ++ ys) = serveFrames cfg xs ++ serveFrames cfg ys := by
  induction xs with
  | nil => simp [serveFrames]
  | cons f rest ih =>
    simp only [List.cons_append, serveFrames]
    cases serveStep cfg f <;> simp [ih]

/-- **C7.** A frame whose type is not DATA (0) is transparent to the
read loop: `serve` consumes it and continues, the connection does not
terminate, and the tun output for any surrounding frames — in
particular DATA frames before and after it — is exactly the output
without the unknown frame, in arrival order. -/
theorem C7_unknown_type_transparent (cfg : ServeCfg) (ty : Nat) (p : List Nat)
    (pre post : List (Nat × List Nat)) (h : ty ≠ 0) :
    serveFrames cfg (pre ++ (ty, p) :: post) = serveFrames cfg (pre ++ post) := by
  rw [serveFrames_append, serveFrames_append]
  congr 1
  have hs := serveStep_nonData cfg ty p h
  simp [serveFrames, hs]

/-- The mux configuration of scenario S5: local cluster
`192.168.0.11/24`, no advertised service CIDRs, empty registry. -/
def cfgS5 : ServeCfg := ⟨⟨[192, 168, 0, 11], [255, 255, 255, 0]⟩, none, emptyLinks⟩

/-- First DATA payload of scenario S5 (version nibble 6, forwarded to
tun without IPv4 inspection). -/
def dataFrame1 : List Nat := [96, 1]

/-- Second DATA payload of scenario S5. -/
def dataFrame2 : List Nat := [96, 2]

/-- **C7 (witness).** A type-7 frame between two DATA frames is
discarded while both DATA frames reach tun in order. -/
theorem C7_unknown_type_transparent_witness :
    (7 ≠ 0) ∧
    serveFrames cfgS5 ((0, dataFrame1) :: (7, [0, 0, 0, 0]) :: (0, dataFrame2) :: []) =
      serveFrames cfgS5 ((0, dataFrame1) :: (0, dataFrame2) :: []) ∧
    serveFrames cfgS5 ((0, dataFrame1) :: (0, dataFrame2) :: []) =
      [dataFrame1, dataFrame2] := by
  refine ⟨by decide, ?_, by decide⟩
  exact C7_unknown_type_transparent cfgS5 7 [0, 0, 0, 0]
    ((0, dataFrame1) :: []) ((0, dataFrame2) :: []) (by decide)

/-- A link whose stored foreign data is pending confirmation. -/
def linkPend : Link :=
  { mkLink "p" ⟨[192, 168, 0, 13], [255, 255, 255, 0]⟩ "p.example" with
    foreignData := ⟨true, ⟨"ca", "tok"⟩, ⟨"cluster.local", [10, 0, 0, 53]⟩⟩ }

/-- Registry holding only `linkPend`. -/
def stPend : LinksState := replaceLinkSt emptyLinks linkPend

/-- A different access info value. -/
def accessNew : LinkAccessInfo := ⟨"ca2", "tok2"⟩

/-- A different DNS info value. -/
def dnsNew : LinkDNSInfo := ⟨"other.local", [10, 0, 0, 54]⟩

/-- **C8.** Two-phase foreign-info update, for a stored link `o` with
`UpdatePending = true` under key `name` (with `o.Name = name`, as the
registry maintains):
with a differing access value and `pending = false` the call is a no-op
(likewise for DNS); with `pending = true` the differing value is staged
and `UpdatePending` stays `true` (likewise for DNS); and after
`LinkInfoUpdated` the stored `UpdatePending` is cleared exactly when the
echoed value equals the stored one. -/
theorem C8_two_phase_update (st : LinksState) (name : String) (o : Link)
    (a : LinkAccessInfo) (d : LinkDNSInfo)
    (h1 : alookup st.links name = some o)
    (h2 : o.foreignData.UpdatePending = true)
    (hname : o.Name = name)
    (ha : accessEqual o.foreignData.access a = false)
    (hd : dnsEqual o.foreignData.dns d = false) :
    (updateLinkInfo st name (some a) none false = ((some o, false), st)) ∧
    (updateLinkInfo st name none (some d) false = ((some o, false), st)) ∧
    (updateLinkInfo st name (some a) none true =
      ((some { o with foreignData :=
          { o.foreignData with access := a, UpdatePending := true } }, true),
        replaceLinkSt st { o with foreignData :=
          { o.foreignData with access := a, UpdatePending := true } })) ∧
    (alookup (updateLinkInfo st name (some a) none true).2.links name =
      some { o with foreignData :=
        { o.foreignData with access := a, UpdatePending := true } }) ∧
    (updateLinkInfo st name none (some d) true =
      ((some { o with foreignData :=
          { o.foreignData with dns := d, UpdatePending := true } }, true),
        replaceLinkSt st { o with foreignData :=
          { o.foreignData with dns := d, UpdatePending := true } })) ∧
    (∀ a2, (alookup (linkInfoUpdated st name (some a2) none).2.links name).map
        (fun s => s.foreignData.UpdatePending) =
      some (!accessEqual o.foreignData.access a2)) ∧
    (∀ d2, (alookup (linkInfoUpdated st name none (some d2)).2.links name).map
        (fun s => s.foreignData.UpdatePending) =
      some (!dnsEqual o.foreignData.dns d2)) := by
  refine ⟨?_, ?_, ?_, ?_, ?_, ?_, ?_⟩
  · simp [updateLinkInfo, h1, ha, h2]
  · simp [updateLinkInfo, h1, hd, h2]
  · simp [updateLinkInfo, h1, ha, h2]
  · simp only [updateLinkInfo, h1, ha, h2]
    simp [replaceLinkSt, hname, alookup_ainsert_self]
  · simp [updateLinkInfo, h1, hd, h2]
  · intro a2
    by_cases heq : accessEqual o.foreignData.access a2 = true
    · simp only [linkInfoUpdated, h1, heq]
      simp [replaceLinkSt, hname, alookup_ainsert_self]
    · have heq' : accessEqual o.foreignData.access a2 = false := by
        revert heq; cases accessEqual o.foreignData.access a2 <;> simp
      simp [linkInfoUpdated, h1, heq', h2]
  · intro d2
    by_cases heq : dnsEqual o.foreignData.dns d2 = true
    · simp only [linkInfoUpdated, h1, heq]
      simp [replaceLinkSt, hname, alookup_ainsert_self]
    · have heq' : dnsEqual o.foreignData.dns d2 = false := by
        revert heq; cases dnsEqual o.foreignData.dns d2 <;> simp
      simp [linkInfoUpdated, h1, heq', h2]

/-- **C8 (witness).** The no-op, staging and confirmation behaviours at
a concrete registry. -/
theorem C8_two_phase_update_witness :
    (alookup stPend.links "p" = some linkPend ∧
     linkPend.foreignData.UpdatePending = true ∧
     accessEqual linkPend.foreignData.access accessNew = false ∧
     dnsEqual linkPend.foreignData.dns dnsNew = false) ∧
    updateLinkInfo stPend "p" (some accessNew) none false = ((some linkPend, false), stPend) := by
  refine ⟨⟨by decide, by decide, by decide, by decide⟩, ?_⟩
  exact (C8_two_phase_update stPend "p" linkPend accessNew dnsNew
    (by decide) (by decide) (by decide) (by decide) (by decide)).1

/-- **C9.** When `updateLink` replaces the snapshot of a name already
present, the new stored snapshot carries the old snapshot's
`LinkForeignData` unchanged, and the stored snapshots of all other
names are untouched. -/
theorem C9_foreign_preserved (st : LinksState) (l o : Link)
    (h : alookup st.links l.Name = some o) :
    (updateLink st (.ok l)).1 = .ok { l with foreignData := o.foreignData } ∧
    alookup (updateLink st (.ok l)).2.links l.Name =
      some { l with foreignData := o.foreignData } ∧
    ∀ n2, n2 ≠ l.Name →
      alookup (updateLink st (.ok l)).2.links n2 = alookup st.links n2 := by
  refine ⟨?_, ?_, ?_⟩
  · simp [updateLink, h]
  · simp [updateLink, h, replaceLinkSt, alookup_ainsert_self]
  · intro n2 hn
    simp only [updateLink, h, replaceLinkSt]
    rw [alookup_ainsert_ne _ _ _ _ (fun hh => hn hh.symm)]
    split <;> split <;> rfl

/-- The stored snapshot for name `a`, with non-trivial foreign data. -/
def linkAfd : Link :=
  { linkA with foreignData := ⟨true, ⟨"ca", "tok"⟩, ⟨"cluster.local", [100, 64, 0, 10]⟩⟩ }

/-- Registry holding only `linkAfd`. -/
def stC9 : LinksState := replaceLinkSt emptyLinks linkAfd

/-- A re-parsed snapshot for name `a` with a new address and host (and
the parser's empty foreign data). -/
def linkAv2 : Link := mkLink "a" ⟨[192, 168, 0, 14], [255, 255, 255, 0]⟩ "a2.example"

/-- **C9 (witness).** Replacing the snapshot of `a` keeps the stored
foreign data. -/
theorem C9_foreign_preserved_witness :
    alookup stC9.links linkAv2.Name = some linkAfd ∧
    (updateLink stC9 (.ok linkAv2)).1 =
      .ok { linkAv2 with foreignData := linkAfd.foreignData } := by
  refine ⟨by decide, ?_⟩
  exact (C9_foreign_preserved stC9 linkAv2 linkAfd (by decide)).1

/-- **C10.** For every IPNet whose address and mask have the same
length (as all parsed CIDRs do), `BroadcastAddress` returns the IP
ANDed with the mask — the network base address with all host bits zero,
equal to `CIDRNet(n).IP` — and not the highest address of the network. -/
theorem C10_broadcast_is_base (n : IPNet) (h : n.ip.length = n.mask.length) :
    broadcastAddress n = some (andBytes n.ip n.mask) ∧
    broadcastAddress n = cidrNetIP n := by
  have hb : broadcastAddress n = some (andBytes n.ip n.mask) := by
    unfold broadcastAddress
    rw [if_pos (le_of_eq h.symm)]
    rw [← h, List.take_length, List.drop_length, List.append_nil]
  refine ⟨hb, ?_⟩
  rw [hb]
  have c1 : ¬(n.mask.length = 16 ∧ n.ip.length = 4 ∧
      ((n.mask.take 12).all (fun b => decide (b = 255)) = true)) := by
    rintro ⟨h16, h4, _⟩
    omega
  have c2 : ¬(n.mask.length = 4 ∧ n.ip.length = 16 ∧ n.ip.take 12 = v4MappedHead) := by
    rintro ⟨h4, h16, _⟩
    omega
  unfold cidrNetIP goMask
  simp only [if_neg c1, if_neg c2]
  rw [if_neg (fun hh => hh h)]

/-- **C10 (witness).** `BroadcastAddress(192.168.0.12/24)` is the base
address `192.168.0.0`, which is `CIDRNet`'s IP. -/
theorem C10_broadcast_is_base_witness :
    (([192, 168, 0, 12] : IPAddr).length = ([255, 255, 255, 0] : IPAddr).length) ∧
    broadcastAddress ⟨[192, 168, 0, 12], [255, 255, 255, 0]⟩ =
      some (andBytes [192, 168, 0, 12] [255, 255, 255, 0]) ∧
    broadcastAddress ⟨[192, 168, 0, 12], [255, 255, 255, 0]⟩ =
      cidrNetIP ⟨[192, 168, 0, 12], [255, 255, 255, 0]⟩ ∧
    andBytes [192, 168, 0, 12] [255, 255, 255, 0] = [192, 168, 0, 0] := by
  refine ⟨by decide, ?_, ?_, by decide⟩
  · exact (C10_broadcast_is_base ⟨[192, 168, 0, 12], [255, 255, 255, 0]⟩ (by decide)).1
  · exact (C10_broadcast_is_base ⟨[192, 168, 0, 12], [255, 255, 255, 0]⟩ (by decide)).2

/-- **C4 (witness).** Scenario S2: the expected link has cluster address
`192.168.0.12` but the remote advertises `192.168.0.13`; validation
fails with a cluster-address-mismatch error. -/
theorem C4_validate_iff_witness :
    newTunnelValidate muxCA (some expectedLink) ⟨[192, 168, 0, 13], [255, 255, 255, 0]⟩ =
      Except.error "cluster address mismatch: got remote cluster address but expected the link cluster address" ∧
    ("cluster address mismatch: got remote cluster address but expected the link cluster address" =
       "cluster address mismatch: got remote cluster address but expected the link cluster address" ∨
     "cluster address mismatch: got remote cluster address but expected the link cluster address" =
       "cluster address mismatch: own address not in foreign range" ∨
     "cluster address mismatch: got remote cluster address but expected the link cluster address" =
       "cluster address mismatch: remote address not in local range") := by
  refine ⟨rfl, ?_⟩
  exact (C4_validate_iff muxCA (some expectedLink)
    ⟨[192, 168, 0, 13], [255, 255, 255, 0]⟩).2 _ rfl
